import Mathlib

/-!
# Verification of the appliance builder's merge engine, ignition assets and
# asset-graph orchestrator

Shallow embedding of `openshift/appliance`'s three in-scope files
(`pkg/asset/config/appliance_config.go`, `pkg/asset/ignition/install_ignition.go`,
`cmd/build.go`) plus the merge engine and orchestrator the spec describes.
External collaborators (YAML parsing, the release catalog, template rendering,
file I/O) are modelled as explicit oracle parameters.
-/

namespace Appliance

/-! ## Ignition configuration data model (igntypes v3_2, the fields this code uses) -/

/-- One entry of `Storage.Files` (path is the natural key). -/
structure StorageFile where
  path : String
  user : String
  mode : Nat
  contents : String
deriving DecidableEq, Repr

/-- One entry of `Storage.Filesystems` (device is the natural key). -/
structure Filesystem where
  device : String
  format : Option String
  path : Option String
deriving DecidableEq, Repr

/-- One systemd unit (name is the natural key). -/
structure SystemdUnit where
  name : String
  contents : Option String
deriving DecidableEq, Repr

/-- One `Passwd` user (name is the natural key). -/
structure PasswdUser where
  name : String
  sshAuthorizedKeys : List String
deriving DecidableEq, Repr

structure Ignition where
  version : String
deriving DecidableEq, Repr

structure Storage where
  files : List StorageFile
  filesystems : List Filesystem
deriving DecidableEq, Repr

structure Systemd where
  units : List SystemdUnit
deriving DecidableEq, Repr

structure Passwd where
  users : List PasswdUser
deriving DecidableEq, Repr

/-- Embedding of `igntypes.Config`, restricted to the collections this repository touches. -/
structure Config where
  ignition : Ignition
  storage : Storage
  systemd : Systemd
  passwd : Passwd
deriving DecidableEq, Repr

/-- Value of `igntypes.MaxVersion.String()` for the imported `v3_2` ignition types. -/
def ignitionMaxVersion : String := "3.2.0"

/-- The empty ignition config fragment. -/
def emptyConfig : Config :=
  { ignition := { version := ignitionMaxVersion }
    storage := { files := [], filesystems := [] }
    systemd := { units := [] }
    passwd := { users := [] } }

/-! ## Merge engine

`ignitionutil.MergeIgnitionConfig` lives in the repository's `pkg/ignition`
package, which is not among the files available here; only its caller
`InstallIgnition.PersistToFile` is. It is therefore modelled from the spec. -/

/-- Modelled from the spec: the per-collection merge policy of the merge engine
(`pkg/ignition`, not available here). Keyed by each entry's natural key:
a key only in `base` keeps the base entry unchanged, a key in both is replaced
wholesale by the overlay entry at the base entry's position, and overlay-only
entries are appended after all base entries in their original relative order. -/
def mergeKeyed {α : Type} (key : α → String) (base overlay : List α) : List α :=
  base.map (fun b => ((overlay.find? (fun o => key o == key b)).getD b))
    ++ overlay.filter (fun o => !(base.any (fun b => key b == key o)))

/-- Merge-time failure of the merge engine. -/
inductive MergeError where
  | schemaMismatch
deriving DecidableEq, Repr

/-- Modelled from the spec: `ignitionutil.MergeIgnitionConfig` (`pkg/ignition`,
not available here). Fails with a `SchemaMismatchError` exactly when the two
fragments are structurally incompatible, i.e. their declared format versions
differ; otherwise merges every collection by natural key with overlay
precedence. Field-level value conflicts are never an error. -/
def MergeIgnitionConfig (base overlay : Config) : Except MergeError Config :=
  if base.ignition.version ≠ overlay.ignition.version then
    .error .schemaMismatch
  else
    .ok
      { ignition := overlay.ignition
        storage :=
          { files := mergeKeyed (fun f => f.path) base.storage.files overlay.storage.files
            filesystems :=
              mergeKeyed (fun f => f.device) base.storage.filesystems overlay.storage.filesystems }
        systemd := { units := mergeKeyed (fun u => u.name) base.systemd.units overlay.systemd.units }
        passwd := { users := mergeKeyed (fun u => u.name) base.passwd.users overlay.passwd.users } }

/-! ## InstallIgnition.PersistToFile (`pkg/asset/ignition/install_ignition.go`) -/

/-- Well-known output path of the install phase. -/
def InstallIgnitionPath : String := "ignition/install/config.ign"

/-- Well-known path of the base ignition fragment read back for merging. -/
def baseIgnitionPath : String := "ignition/base/config.ign"

/-- Result of `ignitionutil.ParseIgnitionFile` on one path: the file may be
absent, present but unparseable, or parse to a config. -/
inductive ParseResult where
  | notExist
  | malformed
  | ok (c : Config)
deriving DecidableEq, Repr

/-- Embedding of `filepath.Join` for the two-component joins this code performs. -/
def joinPath (dir p : String) : String := dir ++ "/" ++ p

/-- Embedding of `InstallIgnition.PersistToFile`: parse the base ignition at
`directory/ignition/base/config.ign`; when (and only when) parsing succeeded,
merge it (as base) with the generated config (as overlay), failing fatally if
the merge fails; then write the resulting config to
`directory/ignition/install/config.ign`. `.ok (p, c)` means config `c` was
written to path `p`; `.error e` means the merge failed and nothing was written.
The filesystem is the oracle `fs`, mapping a path to its parse result. -/
def InstallIgnition.PersistToFile (directory : String) (generated : Config)
    (fs : String → ParseResult) : Except MergeError (String × Config) :=
  match fs (joinPath directory baseIgnitionPath) with
  | .ok baseConfig =>
    match MergeIgnitionConfig baseConfig generated with
    | .error e => .error e
    | .ok merged => .ok (joinPath directory InstallIgnitionPath, merged)
  | _ => .ok (joinPath directory InstallIgnitionPath, generated)

/-! ## InstallIgnition.Generate (`pkg/asset/ignition/install_ignition.go`) -/

/-- The `installServices` constant of `install_ignition.go`. -/
def installServices : List String := ["start-local-registry.service"]

/-- The `installScripts` constant of `install_ignition.go`. -/
def installScripts : List String := ["start-local-registry.sh"]

/-- The `bootDevice` constant of `install_ignition.go`. -/
def bootDevice : String := "/dev/disk/by-partlabel/boot"

/-- The `bootMountPath` constant of `install_ignition.go`. -/
def bootMountPath : String := "/boot"

/-- The `installRegistryDataPath` constant of `install_ignition.go`. -/
def installRegistryDataPath : String := "/mnt/agentdata/oc-mirror/install"

/-- Embedding of `config.EnvConfig`, restricted to the fields this code reads. -/
structure EnvConfig where
  assetsDir : String
  tempDir : String
  debugBootstrap : Bool
  debugInstall : Bool
deriving DecidableEq, Repr

/-- Embedding of `types.ApplianceConfig.OcpRelease`. -/
structure OcpRelease where
  version : String
  channel : Option String
  cpuArchitecture : Option String
  url : Option String
deriving DecidableEq, Repr

/-- Embedding of `types.ApplianceConfig` (the user-supplied config document). -/
structure TypesApplianceConfig where
  apiVersion : String
  kind : String
  ocpRelease : OcpRelease
  diskSizeGB : Int
  pullSecret : String
  sshKey : Option String
deriving DecidableEq, Repr

/-- Embedding of `InstallIgnition.Generate`: builds the install-phase ignition config from
the already-resolved dependency artifacts. It never fetches dependencies
itself: everything it consumes enters through these parameters.
`registriesConfFilePath` and `userCfgFilePath` are path constants declared in
repository files not available here, so they are taken as parameters; `reads`
is the oracle for the template/service file contents the code reads
(`bootstrap.AddSystemdUnits` and `bootstrap.AddStorageFiles` are modelled as
appending one unit per listed service and one file per listed script, with the
read/rendered contents; `addRecoveryGrubMenuItem` appends the rendered
`user.cfg` file and the boot filesystem entry). -/
def InstallIgnition.Generate (registriesConfFilePath userCfgFilePath : String)
    (envConfig : EnvConfig) (applianceConfig : TypesApplianceConfig)
    (registriesConfFileData : String) (reads : String → String) : Config :=
  let users : List PasswdUser :=
    if envConfig.debugInstall then
      [{ name := "core"
         sshAuthorizedKeys :=
           match applianceConfig.sshKey with
           | some k => [k]
           | none => [] }]
    else []
  let units : List SystemdUnit :=
    installServices.map (fun s => { name := s, contents := some (reads ("services/" ++ s)) })
  let scriptFiles : List StorageFile :=
    installScripts.map (fun s =>
      { path := "/usr/local/bin/" ++ s
        user := "root"
        mode := 365
        contents := reads ("scripts/bin/" ++ s ++ ".template") })
  let registriesFile : StorageFile :=
    { path := registriesConfFilePath, user := "root", mode := 384
      contents := registriesConfFileData }
  let userCfgFile : StorageFile :=
    { path := userCfgFilePath, user := "root", mode := 420
      contents := reads "user.cfg.template" }
  { ignition := { version := ignitionMaxVersion }
    storage :=
      { files := scriptFiles ++ [registriesFile, userCfgFile]
        filesystems := [{ device := bootDevice, format := some "ext4", path := some bootMountPath }] }
    systemd := { units := units }
    passwd := { users := users } }

/-! ## ApplianceConfig asset (`pkg/asset/config/appliance_config.go`) -/

/-- The `ApplianceConfigFilename` constant. -/
def ApplianceConfigFilename : String := "appliance-config.yaml"

def CpuArchitectureX86 : String := "x86_64"
def CpuArchitectureAARCH64 : String := "aarch64"
def CpuArchitecturePPC64le : String := "ppc64le"
def ReleaseArchitectureAMD64 : String := "amd64"
def ReleaseArchitectureARM64 : String := "arm64"
def ReleaseArchitecturePPC64le : String := "ppc64le"

/-- The `cpuArchitectures` allow-list. -/
def cpuArchitectures : List String :=
  [CpuArchitectureX86, CpuArchitectureAARCH64, CpuArchitecturePPC64le]

/-- Value of `types.ApplianceConfigVersion`; its declaration is in a repository file not
available here, but the sample template in `appliance_config.go` fixes it as
`v1beta1`. -/
def ApplianceConfigVersion : String := "v1beta1"

/-- Embedding of `asset.File`. -/
structure AssetFile where
  filename : String
  data : String
deriving DecidableEq, Repr

/-- The `ApplianceConfig` asset value (fields `File`, `Config`, `Template`). -/
structure ApplianceConfigAsset where
  file : Option AssetFile
  config : Option TypesApplianceConfig
  template : String
deriving DecidableEq, Repr

/-- The sample template literal embedded in `ApplianceConfig.Generate`. -/
def applianceConfigTemplate : String :=
  "#\n# Note: This is a sample ApplianceConfig file showing\n" ++
  "# which fields are available to aid you in creating your\n" ++
  "# own appliance-config.yaml file.\n#\napiVersion: v1beta1\nkind: ApplianceConfig\n" ++
  "ocpRelease:\n\tversion: ocp-release-version \n\tchannel: ocp-release-channel\n" ++
  "\tcpuArchitecture: cpu-architecture\ndiskSizeGB: disk-size\n" ++
  "pullSecret: pull-secret\nsshKey: ssh-key\n"

/-- Embedding of `ApplianceConfig.Dependencies`: returns the empty dependency set. -/
def ApplianceConfig.Dependencies : List String := []

/-- Embedding of `ApplianceConfig.Generate`: sets the sample template on the asset and
returns nil unconditionally; the `dependencies` parameter is never read. -/
def ApplianceConfig.Generate (a : ApplianceConfigAsset) (dependencies : List String) :
    Except String ApplianceConfigAsset :=
  .ok { a with template := applianceConfigTemplate }

/-- Embedding of `GetReleaseArchitectureByCPU`. -/
def GetReleaseArchitectureByCPU (arch : String) : String :=
  if arch = CpuArchitectureX86 then ReleaseArchitectureAMD64
  else if arch = CpuArchitectureAARCH64 then ReleaseArchitectureARM64
  else arch

/-- Result of `asset.FileFetcher.FetchByName`: the file may be absent
(`os.IsNotExist`), unreadable for another reason, or read successfully. -/
inductive FetchedFile where
  | notExist
  | fetchFailure (msg : String)
  | ok (data : String)
deriving DecidableEq, Repr

/-- Outcome of `ApplianceConfig.Load`: `notFound` is the `(false, nil)` return,
`err` is any `(false, non-nil)` return, `loaded cfg` is the `(true, nil)`
return with the asset's final `Config` value. -/
inductive LoadResult where
  | notFound
  | err (msg : String)
  | loaded (cfg : TypesApplianceConfig)
deriving DecidableEq, Repr

/-- Embedding of `ApplianceConfig.validateConfig` followed by `finish`: returns the list of
validation error messages (empty means valid). `pullSecretErr` is the external
`validate.ImagePullSecret` collaborator. -/
def validateConfig (pullSecretErr : String → Option String)
    (cfg : TypesApplianceConfig) : List String :=
  if cfg.apiVersion = "" then ["install-config version required"]
  else if cfg.apiVersion ≠ ApplianceConfigVersion then
    ["appliance-config version must be v1beta1"]
  else
    match pullSecretErr cfg.pullSecret with
    | some e => [e]
    | none => []

/-- The CPU architecture `Load` settles on: the unmarshalled value, defaulted
to x86_64 when absent (the `// Fallback to x86_64` branch), lower-cased. -/
def loadedCpuArch (config0 : TypesApplianceConfig) : String :=
  (config0.ocpRelease.cpuArchitecture.getD CpuArchitectureX86).toLower

/-- The tail of `ApplianceConfig.Load` after a successful strict unmarshal:
reject any CPU architecture outside the allow-list, resolve the release image
via the external graph collaborator, record the resolved URL and version, then
validate. -/
def loadResolved
    (getReleaseImage : String → Option String → String → Except String (String × String))
    (pullSecretErr : String → Option String) (config0 : TypesApplianceConfig) : LoadResult :=
  if loadedCpuArch config0 ∉ cpuArchitectures then
    .err ("Unsupported CPU architecture: " ++ loadedCpuArch config0)
  else
    match getReleaseImage config0.ocpRelease.version config0.ocpRelease.channel
        (GetReleaseArchitectureByCPU (loadedCpuArch config0)) with
    | .error e => .err e
    | .ok (releaseImage, releaseVersion) =>
      let config2 :=
        { config0 with ocpRelease :=
          { config0.ocpRelease with
            cpuArchitecture := some (loadedCpuArch config0)
            url := some releaseImage
            version := releaseVersion } }
      match validateConfig pullSecretErr config2 with
      | [] => .loaded config2
      | e :: _ => .err ("invalid Appliance Config configuration: " ++ e)

/-- Embedding of `ApplianceConfig.Load`: fetch `appliance-config.yaml` (absence is the
non-error `(false, nil)` case), strict-unmarshal it, then run `loadResolved`.
`unmarshalStrict`, `getReleaseImage` and `pullSecretErr` are the external
collaborators as oracles. -/
def ApplianceConfig.Load (fetched : FetchedFile)
    (unmarshalStrict : String → Except String TypesApplianceConfig)
    (getReleaseImage : String → Option String → String → Except String (String × String))
    (pullSecretErr : String → Option String) : LoadResult :=
  match fetched with
  | .notExist => .notFound
  | .fetchFailure msg => .err ("failed to load appliance-config.yaml file: " ++ msg)
  | .ok data =>
    match unmarshalStrict data with
    | .error e => .err ("failed to unmarshal appliance-config.yaml: " ++ e)
    | .ok config0 => loadResolved getReleaseImage pullSecretErr config0

/-! ## Asset-graph orchestrator

`asset.Store.Fetch` (the orchestrator `cmd/build.go` drives) is not among the
files available here; only its callers are. It is modelled from the spec's
§4.1 algorithm: depth-first resolution with memoization, an in-progress stack
for cycle detection, and a process-wide cache threaded through every fetch. -/

/-- Modelled from the spec: the orchestrator's process-wide state. `cache`
maps a node identity to its generated artifact (`none` = not yet generated);
`count` instruments how many times each node's generation function has been
invoked, so memoization claims are about observable behaviour. -/
structure Store (ι A : Type) where
  cache : ι → Option A
  count : ι → Nat

/-- The state at the start of an orchestrator run: nothing cached, no
generation function invoked. -/
def freshStore (ι A : Type) : Store ι A := { cache := fun _ => none, count := fun _ => 0 }

/-- Orchestrator failures: a dependency cycle naming the identity it was
detected at, a node's own generation failing, or the step bound running out
(an artifact of the total model, never reached with enough fuel). -/
inductive FetchError (ι : Type) where
  | outOfFuel
  | cycle (id : ι)
  | generation (id : ι)
deriving DecidableEq, Repr

/-- Result of a fetch: the artifacts of the requested identities plus the
updated store, or the first failure (fail-fast) plus the store as it stood,
so already-completed independent branches remain cached. -/
inductive FetchOutcome (ι A : Type) where
  | ok (artifacts : List A) (st : Store ι A)
  | err (e : FetchError ι) (st : Store ι A)

/-- The store carried by an outcome, successful or not. -/
def FetchOutcome.store {ι A : Type} : FetchOutcome ι A → Store ι A
  | .ok _ st => st
  | .err _ st => st

/-- The artifacts of a successful outcome. -/
def FetchOutcome.artifacts {ι A : Type} : FetchOutcome ι A → Option (List A)
  | .ok arts _ => some arts
  | .err _ _ => none

/-- The error of a failed outcome. -/
def FetchOutcome.error {ι A : Type} : FetchOutcome ι A → Option (FetchError ι)
  | .ok _ _ => none
  | .err e _ => some e

/-- Caching a freshly generated artifact: records it for identity `t` and
bumps `t`'s generation counter. -/
def cacheArtifact {ι A : Type} [DecidableEq ι] (st : Store ι A) (t : ι) (a : A) : Store ι A :=
  { cache := fun i => if i = t then some a else st.cache i
    count := fun i => if i = t then st.count i + 1 else st.count i }

/-- Modelled from the spec: §4.1 depth-first resolution of a worklist of
identities. A cached identity returns its artifact immediately; an identity on
the in-progress `stack` is a cycle error; otherwise its declared dependencies
are resolved recursively (fail-fast, left to right), its generation function
runs on the resolved dependency artifacts, and the artifact is cached. `fuel`
bounds the recursion depth to make the model total. -/
def fetchMany {ι A : Type} [DecidableEq ι] (deps : ι → List ι) (gen : ι → List A → Option A) :
    Nat → List ι → Store ι A → List ι → FetchOutcome ι A
  | _, _, st, [] => .ok [] st
  | 0, _, st, _ :: _ => .err .outOfFuel st
  | fuel + 1, stack, st, t :: rest =>
    match st.cache t with
    | some a =>
      match fetchMany deps gen fuel stack st rest with
      | .ok arts st' => .ok (a :: arts) st'
      | .err e st' => .err e st'
    | none =>
      if t ∈ stack then .err (.cycle t) st
      else
        match fetchMany deps gen fuel (t :: stack) st (deps t) with
        | .err e st1 => .err e st1
        | .ok arts st1 =>
          match gen t arts with
          | none => .err (.generation t) st1
          | some a =>
            match fetchMany deps gen fuel stack (cacheArtifact st1 t a) rest with
            | .ok arts' st' => .ok (a :: arts') st'
            | .err e st' => .err e st'

/-- Modelled from the spec: `Fetch(target identity) -> artifact, error` over a
given store. -/
def Fetch {ι A : Type} [DecidableEq ι] (deps : ι → List ι) (gen : ι → List A → Option A)
    (fuel : Nat) (st : Store ι A) (target : ι) : FetchOutcome ι A :=
  fetchMany deps gen fuel [] st [target]

/-! ## The build command's two fetches (`cmd/build.go`) -/

/-- The two assets `cmd/build.go` requests: `EnvConfig` in `preRunBuild` and
`ApplianceDiskImage` in `runBuild` of the same build invocation. -/
inductive BuildAsset where
  | envConfig
  | applianceDiskImage
deriving DecidableEq, Repr

/-- Modelled from the spec: `ApplianceDiskImage`'s declared dependency list
lives in a repository file not available here; per the spec and C3 its
dependency closure contains `EnvConfig`. `EnvConfig` declares no
dependencies. -/
def buildDeps : BuildAsset → List BuildAsset
  | .envConfig => []
  | .applianceDiskImage => [.envConfig]

/-- A generation function for the build scenario that always succeeds; the
artifact value is irrelevant to the memoization claim. -/
def buildGen : BuildAsset → List Nat → Option Nat := fun _ _ => some 0

/-- The store after `preRunBuild`'s `Fetch` of `EnvConfig` on the fresh
process-wide store. -/
def preRunStore : Store BuildAsset Nat :=
  (Fetch buildDeps buildGen 4 (freshStore BuildAsset Nat) .envConfig).store

/-- The store after `runBuild`'s subsequent `Fetch` of `ApplianceDiskImage`. -/
def runBuildStore : Store BuildAsset Nat :=
  (Fetch buildDeps buildGen 4 preRunStore .applianceDiskImage).store

/-! ## Theorems -/

@[simp]
theorem cacheArtifact_cache_self {ι A : Type} [DecidableEq ι] (st : Store ι A) (t : ι) (a : A) :
    (cacheArtifact st t a).cache t = some a := by
  simp [cacheArtifact]

theorem cacheArtifact_cache_other {ι A : Type} [DecidableEq ι] (st : Store ι A) (t c : ι)
    (a : A) (h : c ≠ t) : (cacheArtifact st t a).cache c = st.cache c := by
  simp [cacheArtifact, h]

@[simp]
theorem cacheArtifact_count_self {ι A : Type} [DecidableEq ι] (st : Store ι A) (t : ι) (a : A) :
    (cacheArtifact st t a).count t = st.count t + 1 := by
  simp [cacheArtifact]

theorem cacheArtifact_count_other {ι A : Type} [DecidableEq ι] (st : Store ι A) (t c : ι)
    (a : A) (h : c ≠ t) : (cacheArtifact st t a).count c = st.count c := by
  simp [cacheArtifact, h]

/-- C1: for every assets directory, when a base ignition file exists at
`ignition/base/config.ign` and parses successfully, `InstallIgnition.PersistToFile`
writes to `ignition/install/config.ign` the merge of the persisted base config
(as base) with the generated config (as overlay); when no base file exists it
writes the generated config alone. -/
theorem c1_persistToFile_layers_base (directory : String)
    (generated baseConfig merged : Config) (fs : String → ParseResult) :
    (fs (joinPath directory baseIgnitionPath) = .ok baseConfig →
      MergeIgnitionConfig baseConfig generated = .ok merged →
      InstallIgnition.PersistToFile directory generated fs
        = .ok (joinPath directory InstallIgnitionPath, merged))
    ∧ (fs (joinPath directory baseIgnitionPath) = .notExist →
      InstallIgnition.PersistToFile directory generated fs
        = .ok (joinPath directory InstallIgnitionPath, generated)) := by
  constructor
  · intro h1 h2
    simp [InstallIgnition.PersistToFile, h1, h2]
  · intro h1
    simp [InstallIgnition.PersistToFile, h1]

/-- Witness for C1 at a concrete directory and concrete configs. -/
theorem c1_persistToFile_layers_base_witness :
    InstallIgnition.PersistToFile "assets" emptyConfig (fun _ => ParseResult.ok emptyConfig)
      = .ok (joinPath "assets" InstallIgnitionPath, emptyConfig)
    ∧ InstallIgnition.PersistToFile "assets" emptyConfig (fun _ => ParseResult.notExist)
      = .ok (joinPath "assets" InstallIgnitionPath, emptyConfig) :=
  ⟨(c1_persistToFile_layers_base "assets" emptyConfig emptyConfig emptyConfig _).1 rfl rfl,
   (c1_persistToFile_layers_base "assets" emptyConfig emptyConfig emptyConfig _).2 rfl⟩

/-- C4 counterexample: a base file that exists but fails to parse is silently
skipped, not reported: `PersistToFile` succeeds and writes the generated config
alone, returning no error. -/
theorem c4_unreadable_base_not_reported :
    InstallIgnition.PersistToFile "assets" emptyConfig (fun _ => ParseResult.malformed)
      = .ok (joinPath "assets" InstallIgnitionPath, emptyConfig) := rfl

/-- C4 (amended): `MergeIgnitionConfig` fails with a schema mismatch exactly
when the fragments are structurally incompatible (declared versions differ),
and that failure is fatal: `PersistToFile` returns it and writes nothing.
A failure to parse the persisted base fragment, however, is silently skipped:
the generated config is written alone. Field-level value conflicts never
produce an error: whenever the versions agree the merge succeeds. -/
theorem c4_merge_failure_fatal_parse_failure_skipped :
    (∀ b o : Config, MergeIgnitionConfig b o = .error .schemaMismatch ↔
        b.ignition.version ≠ o.ignition.version)
    ∧ (∀ (directory : String) (generated baseConfig : Config) (fs : String → ParseResult)
        (e : MergeError),
        fs (joinPath directory baseIgnitionPath) = .ok baseConfig →
        MergeIgnitionConfig baseConfig generated = .error e →
        InstallIgnition.PersistToFile directory generated fs = .error e)
    ∧ (∀ (directory : String) (generated : Config) (fs : String → ParseResult),
        fs (joinPath directory baseIgnitionPath) = .malformed →
        InstallIgnition.PersistToFile directory generated fs
          = .ok (joinPath directory InstallIgnitionPath, generated))
    ∧ (∀ b o : Config, b.ignition.version = o.ignition.version →
        ∃ m, MergeIgnitionConfig b o = .ok m) := by
  refine ⟨?_, ?_, ?_, ?_⟩
  · intro b o
    constructor
    · intro h
      by_contra hv
      simp [MergeIgnitionConfig, hv] at h
    · intro hv
      simp [MergeIgnitionConfig, hv]
  · intro d g b fs e h1 h2
    simp [InstallIgnition.PersistToFile, h1, h2]
  · intro d g fs h1
    simp [InstallIgnition.PersistToFile, h1]
  · intro b o hv
    simp [MergeIgnitionConfig, hv]

/-- Witness for the amended C4 at concrete configs: a version-mismatched base
is a fatal merge error, a malformed base is skipped, and equal versions merge
without error. -/
theorem c4_merge_failure_fatal_parse_failure_skipped_witness :
    MergeIgnitionConfig { emptyConfig with ignition := { version := "2.2.0" } } emptyConfig
      = .error .schemaMismatch
    ∧ InstallIgnition.PersistToFile "assets" emptyConfig
        (fun _ => ParseResult.ok { emptyConfig with ignition := { version := "2.2.0" } })
      = .error .schemaMismatch
    ∧ InstallIgnition.PersistToFile "assets" emptyConfig (fun _ => ParseResult.malformed)
      = .ok (joinPath "assets" InstallIgnitionPath, emptyConfig)
    ∧ ∃ m, MergeIgnitionConfig emptyConfig emptyConfig = .ok m :=
  ⟨(c4_merge_failure_fatal_parse_failure_skipped.1 _ emptyConfig).2 (by decide),
   c4_merge_failure_fatal_parse_failure_skipped.2.1 "assets" emptyConfig
     { emptyConfig with ignition := { version := "2.2.0" } } _ _ rfl
     ((c4_merge_failure_fatal_parse_failure_skipped.1 _ emptyConfig).2 (by decide)),
   c4_merge_failure_fatal_parse_failure_skipped.2.2.1 "assets" emptyConfig _ rfl,
   c4_merge_failure_fatal_parse_failure_skipped.2.2.2 emptyConfig emptyConfig rfl⟩

/-- C2: the keyed merge keeps base entries whose key is absent from the
overlay unchanged at their position, replaces an entry whose key the overlay
also carries wholesale by the overlay entry at the base entry's position, and
appends overlay-only entries after all base entries in their original order;
in particular merging Files `[(/a,0),(/b,1)]` with `[(/b,2),(/c,3)]` yields
`[(/a,0),(/b,2),(/c,3)]`. -/
theorem c2_merge_override_semantics :
    (∀ (α : Type) (key : α → String) (base overlay : List α) (i : Nat) (b : α),
        base[i]? = some b →
        ((overlay.find? (fun o => key o == key b) = none →
            (mergeKeyed key base overlay)[i]? = some b)
          ∧ (∀ o, overlay.find? (fun o2 => key o2 == key b) = some o →
              (mergeKeyed key base overlay)[i]? = some o)))
    ∧ (∀ (α : Type) (key : α → String) (base overlay : List α),
        (mergeKeyed key base overlay).drop base.length
          = overlay.filter (fun o => !(base.any (fun b => key b == key o))))
    ∧ (MergeIgnitionConfig
        { emptyConfig with storage :=
            { files := [⟨"/a", "", 0, ""⟩, ⟨"/b", "", 1, ""⟩], filesystems := [] } }
        { emptyConfig with storage :=
            { files := [⟨"/b", "", 2, ""⟩, ⟨"/c", "", 3, ""⟩], filesystems := [] } }
        = .ok { emptyConfig with storage :=
            { files := [⟨"/a", "", 0, ""⟩, ⟨"/b", "", 2, ""⟩, ⟨"/c", "", 3, ""⟩]
              filesystems := [] } }) := by
  refine ⟨?_, ?_, ?_⟩
  · intro α key base overlay i b hb
    obtain ⟨hi, -⟩ := List.getElem?_eq_some.mp hb
    have hmap : (mergeKeyed key base overlay)[i]?
        = some ((overlay.find? (fun o => key o == key b)).getD b) := by
      unfold mergeKeyed
      rw [List.getElem?_append, if_pos (by simpa using hi), List.getElem?_map, hb]
      rfl
    constructor
    · intro hfind
      rw [hmap, hfind]
      rfl
    · intro o hfind
      rw [hmap, hfind]
      rfl
  · intro α key base overlay
    unfold mergeKeyed
    have hlen : base.length
        = (base.map (fun b => ((overlay.find? (fun o => key o == key b)).getD b))).length := by
      simp
    rw [hlen, List.drop_left]
  · rfl

/-- Witness for C2's universally quantified parts at concrete file lists. -/
theorem c2_merge_override_semantics_witness :
    (mergeKeyed (fun f : StorageFile => f.path)
        [⟨"/a", "", 0, ""⟩, ⟨"/b", "", 1, ""⟩] [⟨"/b", "", 2, ""⟩, ⟨"/c", "", 3, ""⟩])[0]?
      = some ⟨"/a", "", 0, ""⟩
    ∧ (mergeKeyed (fun f : StorageFile => f.path)
        [⟨"/a", "", 0, ""⟩, ⟨"/b", "", 1, ""⟩] [⟨"/b", "", 2, ""⟩, ⟨"/c", "", 3, ""⟩])[1]?
      = some ⟨"/b", "", 2, ""⟩ :=
  ⟨((c2_merge_override_semantics.1 StorageFile (fun f => f.path)
      [⟨"/a", "", 0, ""⟩, ⟨"/b", "", 1, ""⟩] [⟨"/b", "", 2, ""⟩, ⟨"/c", "", 3, ""⟩]
      0 ⟨"/a", "", 0, ""⟩ rfl).1 (by decide)),
   ((c2_merge_override_semantics.1 StorageFile (fun f => f.path)
      [⟨"/a", "", 0, ""⟩, ⟨"/b", "", 1, ""⟩] [⟨"/b", "", 2, ""⟩, ⟨"/c", "", 3, ""⟩]
      1 ⟨"/b", "", 1, ""⟩ rfl).2 ⟨"/b", "", 2, ""⟩ (by decide))⟩

/-- C10: `InstallIgnition.Generate` adds a Passwd user exactly when
`EnvConfig.DebugInstall` is true; that user is named `core` and carries the
appliance SSH key exactly when `Config.SshKey` is non-nil; with
`DebugInstall` false the generated config contains no users. -/
theorem c10_debug_install_core_user (registriesConfFilePath userCfgFilePath : String)
    (envConfig : EnvConfig) (applianceConfig : TypesApplianceConfig)
    (registriesConfFileData : String) (reads : String → String) :
    (envConfig.debugInstall = false →
      (InstallIgnition.Generate registriesConfFilePath userCfgFilePath envConfig
          applianceConfig registriesConfFileData reads).passwd.users = [])
    ∧ (envConfig.debugInstall = true →
      (InstallIgnition.Generate registriesConfFilePath userCfgFilePath envConfig
          applianceConfig registriesConfFileData reads).passwd.users
        = [{ name := "core"
             sshAuthorizedKeys :=
               match applianceConfig.sshKey with
               | some k => [k]
               | none => [] }]) := by
  constructor
  · intro h
    simp [InstallIgnition.Generate, h]
  · intro h
    simp [InstallIgnition.Generate, h]

/-- Witness for C10 with debug off, and with debug on plus an SSH key. -/
theorem c10_debug_install_core_user_witness :
    (InstallIgnition.Generate "/r" "/u" ⟨"d", "t", false, false⟩
        ⟨"v1beta1", "ApplianceConfig", ⟨"4.13", none, none, none⟩, 100, "ps", some "key"⟩
        "" (fun _ => "")).passwd.users = []
    ∧ (InstallIgnition.Generate "/r" "/u" ⟨"d", "t", false, true⟩
        ⟨"v1beta1", "ApplianceConfig", ⟨"4.13", none, none, none⟩, 100, "ps", some "key"⟩
        "" (fun _ => "")).passwd.users = [{ name := "core", sshAuthorizedKeys := ["key"] }] :=
  ⟨(c10_debug_install_core_user "/r" "/u" ⟨"d", "t", false, false⟩
      ⟨"v1beta1", "ApplianceConfig", ⟨"4.13", none, none, none⟩, 100, "ps", some "key"⟩
      "" (fun _ => "")).1 rfl,
   (c10_debug_install_core_user "/r" "/u" ⟨"d", "t", false, true⟩
      ⟨"v1beta1", "ApplianceConfig", ⟨"4.13", none, none, none⟩, 100, "ps", some "key"⟩
      "" (fun _ => "")).2 rfl⟩

/-- C5: in every config `InstallIgnition.Generate` produces, each natural key
appears at most once per collection: the storage file paths, the filesystem
devices, the systemd unit names and the passwd user names are each pairwise
distinct. The two path constants declared outside the available files enter
as parameters, assumed distinct from each other and from the script path. -/
theorem c5_natural_key_uniqueness (registriesConfFilePath userCfgFilePath : String)
    (envConfig : EnvConfig) (applianceConfig : TypesApplianceConfig)
    (registriesConfFileData : String) (reads : String → String)
    (h1 : registriesConfFilePath ≠ "/usr/local/bin/start-local-registry.sh")
    (h2 : userCfgFilePath ≠ "/usr/local/bin/start-local-registry.sh")
    (h3 : registriesConfFilePath ≠ userCfgFilePath) :
    ((InstallIgnition.Generate registriesConfFilePath userCfgFilePath envConfig
        applianceConfig registriesConfFileData reads).storage.files.map
          (fun f => f.path)).Nodup
    ∧ ((InstallIgnition.Generate registriesConfFilePath userCfgFilePath envConfig
        applianceConfig registriesConfFileData reads).storage.filesystems.map
          (fun f => f.device)).Nodup
    ∧ ((InstallIgnition.Generate registriesConfFilePath userCfgFilePath envConfig
        applianceConfig registriesConfFileData reads).systemd.units.map
          (fun u => u.name)).Nodup
    ∧ ((InstallIgnition.Generate registriesConfFilePath userCfgFilePath envConfig
        applianceConfig registriesConfFileData reads).passwd.users.map
          (fun u => u.name)).Nodup := by
  refine ⟨?_, ?_, ?_, ?_⟩
  · simp [InstallIgnition.Generate, installScripts, List.nodup_cons]
    exact ⟨⟨fun h => h1 h.symm, fun h => h2 h.symm⟩, h3⟩
  · simp [InstallIgnition.Generate]
  · simp [InstallIgnition.Generate, installServices]
  · rcases h : envConfig.debugInstall with _ | _ <;>
      simp [InstallIgnition.Generate, h]

/-- Witness for C5 at concrete, distinct path constants. -/
theorem c5_natural_key_uniqueness_witness :
    ("/etc/containers/registries.conf" : String) ≠ "/usr/local/bin/start-local-registry.sh"
    ∧ (("/boot/grub2/user.cfg" : String) ≠ "/usr/local/bin/start-local-registry.sh")
    ∧ ((InstallIgnition.Generate "/etc/containers/registries.conf" "/boot/grub2/user.cfg"
        ⟨"d", "t", false, true⟩
        ⟨"v1beta1", "ApplianceConfig", ⟨"4.13", none, none, none⟩, 100, "ps", none⟩
        "" (fun _ => "")).storage.files.map (fun f => f.path)).Nodup :=
  ⟨by decide, by decide,
   (c5_natural_key_uniqueness "/etc/containers/registries.conf" "/boot/grub2/user.cfg"
      ⟨"d", "t", false, true⟩
      ⟨"v1beta1", "ApplianceConfig", ⟨"4.13", none, none, none⟩, 100, "ps", none⟩
      "" (fun _ => "") (by decide) (by decide) (by decide)).1⟩

/-- C8: `InstallIgnition.Generate` is a pure function of its resolved
dependency artifacts and its declared external reads: two invocations with
equal `EnvConfig`, appliance config, registries data and template-file
contents produce the same config. It obtains dependencies only through these
parameters, never by fetching. -/
theorem c8_generate_deterministic (registriesConfFilePath userCfgFilePath : String)
    (envConfig envConfig' : EnvConfig)
    (applianceConfig applianceConfig' : TypesApplianceConfig)
    (registriesConfFileData registriesConfFileData' : String)
    (reads reads' : String → String)
    (henv : envConfig = envConfig') (hac : applianceConfig = applianceConfig')
    (hrd : registriesConfFileData = registriesConfFileData')
    (hreads : ∀ p, reads p = reads' p) :
    InstallIgnition.Generate registriesConfFilePath userCfgFilePath envConfig
        applianceConfig registriesConfFileData reads
      = InstallIgnition.Generate registriesConfFilePath userCfgFilePath envConfig'
          applianceConfig' registriesConfFileData' reads' := by
  have hr : reads = reads' := funext hreads
  rw [henv, hac, hrd, hr]

/-- Witness for C8: two syntactically different but equal-input invocations
coincide. -/
theorem c8_generate_deterministic_witness :
    InstallIgnition.Generate "/r" "/u" ⟨"d", "t", false, true⟩
        ⟨"v1beta1", "ApplianceConfig", ⟨"4.13", none, none, none⟩, 100, "ps", none⟩
        "data" (fun p => p)
      = InstallIgnition.Generate "/r" "/u" ⟨"d", "t", false, true⟩
          ⟨"v1beta1", "ApplianceConfig", ⟨"4.13", none, none, none⟩, 100, "ps", none⟩
          "data" (fun p => p ++ "") :=
  c8_generate_deterministic "/r" "/u" _ _ _ _ _ _ _ _ rfl rfl rfl
    (fun p => (String.append_empty p).symm)

/-- C7: `ApplianceConfig` declares an empty dependency set, its `Generate`
succeeds unconditionally (setting the sample template) for every input, and —
in the orchestrator — a node with no declared dependencies and a succeeding
generation function generates on the first `Fetch` from a fresh store without
any other node's generation running. -/
theorem c7_applianceConfig_no_deps_generate :
    ApplianceConfig.Dependencies = []
    ∧ (∀ (a : ApplianceConfigAsset) (dependencies : List String),
        ApplianceConfig.Generate a dependencies
          = .ok { a with template := applianceConfigTemplate })
    ∧ (∀ (ι A : Type) [DecidableEq ι] (deps : ι → List ι) (gen : ι → List A → Option A)
        (t : ι) (a : A) (fuel : Nat),
        deps t = [] → gen t [] = some a →
        (Fetch deps gen (fuel + 1) (freshStore ι A) t).artifacts = some [a]
        ∧ (Fetch deps gen (fuel + 1) (freshStore ι A) t).store.cache t = some a
        ∧ ∀ c, c ≠ t → (Fetch deps gen (fuel + 1) (freshStore ι A) t).store.count c = 0) := by
  refine ⟨rfl, fun a dependencies => rfl, ?_⟩
  intro ι A _ deps gen t a fuel hdeps hgen
  have hrun : Fetch deps gen (fuel + 1) (freshStore ι A) t
      = .ok [a] (cacheArtifact (freshStore ι A) t a) := by
    simp [Fetch, fetchMany, freshStore, hdeps, hgen]
  refine ⟨by rw [hrun]; rfl, by rw [hrun]; simp [FetchOutcome.store], ?_⟩
  intro c hc
  rw [hrun]
  simp [FetchOutcome.store, cacheArtifact, hc, freshStore]

/-- Witness for C7's orchestrator conjunct at a concrete two-node graph. -/
theorem c7_applianceConfig_no_deps_generate_witness :
    (Fetch (fun _ : Bool => []) (fun _ _ => some (0 : Nat)) 1
        (freshStore Bool Nat) true).artifacts = some [0]
    ∧ (Fetch (fun _ : Bool => []) (fun _ _ => some (0 : Nat)) 1
        (freshStore Bool Nat) true).store.cache true = some 0
    ∧ ∀ c, c ≠ true → (Fetch (fun _ : Bool => []) (fun _ _ => some (0 : Nat)) 1
        (freshStore Bool Nat) true).store.count c = 0 :=
  c7_applianceConfig_no_deps_generate.2.2 Bool Nat
    (fun _ => []) (fun _ _ => some 0) true 0 0 rfl rfl

/-- Lemma: `loadResolved` never reports the file-absent outcome. -/
theorem loadResolved_ne_notFound
    (getReleaseImage : String → Option String → String → Except String (String × String))
    (pullSecretErr : String → Option String) (config0 : TypesApplianceConfig) :
    loadResolved getReleaseImage pullSecretErr config0 ≠ .notFound := by
  simp only [loadResolved]
  split
  · simp
  · split
    · simp
    · split <;> simp

/-- What a successful `loadResolved` guarantees about the final config. -/
theorem loadResolved_loaded
    (getReleaseImage : String → Option String → String → Except String (String × String))
    (pullSecretErr : String → Option String) (config0 cfg : TypesApplianceConfig)
    (h : loadResolved getReleaseImage pullSecretErr config0 = .loaded cfg) :
    cfg.ocpRelease.cpuArchitecture = some (loadedCpuArch config0)
    ∧ loadedCpuArch config0 ∈ cpuArchitectures
    ∧ validateConfig pullSecretErr cfg = [] := by
  simp only [loadResolved] at h
  split at h
  · simp at h
  · next hmem =>
    rw [not_not] at hmem
    split at h
    · simp at h
    · split at h
      · next hval =>
        simp only [LoadResult.loaded.injEq] at h
        subst h
        exact ⟨rfl, hmem, hval⟩
      · simp at h

/-- C9: `ApplianceConfig.Load` returns the non-error not-found outcome exactly
when `appliance-config.yaml` does not exist; an unreadable file, a
strict-unmarshal failure, an unsupported CPU architecture and a
release-resolver failure each return an error; and a successful load carries a
CPU architecture that is the lower-cased input value defaulted to x86_64, lies
in the allow-list (x86_64, aarch64, ppc64le), and validates cleanly. -/
theorem c9_load_error_behaviour (fetched : FetchedFile)
    (unmarshalStrict : String → Except String TypesApplianceConfig)
    (getReleaseImage : String → Option String → String → Except String (String × String))
    (pullSecretErr : String → Option String) :
    (ApplianceConfig.Load fetched unmarshalStrict getReleaseImage pullSecretErr = .notFound
      ↔ fetched = .notExist)
    ∧ (∀ msg, fetched = .fetchFailure msg →
        ∃ m, ApplianceConfig.Load fetched unmarshalStrict getReleaseImage pullSecretErr = .err m)
    ∧ (∀ data e, fetched = .ok data → unmarshalStrict data = .error e →
        ∃ m, ApplianceConfig.Load fetched unmarshalStrict getReleaseImage pullSecretErr = .err m)
    ∧ (∀ data config0, fetched = .ok data → unmarshalStrict data = .ok config0 →
        loadedCpuArch config0 ∉ cpuArchitectures →
        ∃ m, ApplianceConfig.Load fetched unmarshalStrict getReleaseImage pullSecretErr = .err m)
    ∧ (∀ data config0 e, fetched = .ok data → unmarshalStrict data = .ok config0 →
        getReleaseImage config0.ocpRelease.version config0.ocpRelease.channel
          (GetReleaseArchitectureByCPU (loadedCpuArch config0)) = .error e →
        ∃ m, ApplianceConfig.Load fetched unmarshalStrict getReleaseImage pullSecretErr = .err m)
    ∧ (∀ cfg, ApplianceConfig.Load fetched unmarshalStrict getReleaseImage pullSecretErr
          = .loaded cfg →
        ∃ data config0, fetched = .ok data ∧ unmarshalStrict data = .ok config0
          ∧ cfg.ocpRelease.cpuArchitecture = some (loadedCpuArch config0)
          ∧ loadedCpuArch config0 ∈ cpuArchitectures
          ∧ validateConfig pullSecretErr cfg = []) := by
  refine ⟨?_, ?_, ?_, ?_, ?_, ?_⟩
  · constructor
    · intro h
      cases fetched with
      | notExist => rfl
      | fetchFailure m => simp [ApplianceConfig.Load] at h
      | ok data =>
        simp only [ApplianceConfig.Load] at h
        rcases hum : unmarshalStrict data with e | c0 <;> rw [hum] at h
        · simp at h
        · exact absurd h (loadResolved_ne_notFound _ _ _)
    · rintro rfl
      rfl
  · rintro msg rfl
    exact ⟨_, rfl⟩
  · rintro data e rfl hum
    exact ⟨"failed to unmarshal appliance-config.yaml: " ++ e,
      by simp [ApplianceConfig.Load, hum]⟩
  · rintro data config0 rfl hum hmem
    refine ⟨"Unsupported CPU architecture: " ++ loadedCpuArch config0, ?_⟩
    simp only [ApplianceConfig.Load, hum]
    unfold loadResolved
    rw [if_pos hmem]
  · rintro data config0 e rfl hum hrel
    simp only [ApplianceConfig.Load, hum]
    simp only [loadResolved]
    split
    · exact ⟨_, rfl⟩
    · rw [hrel]
      exact ⟨e, rfl⟩
  · intro cfg h
    cases fetched with
    | notExist => simp [ApplianceConfig.Load] at h
    | fetchFailure m => simp [ApplianceConfig.Load] at h
    | ok data =>
      simp only [ApplianceConfig.Load] at h
      rcases hum : unmarshalStrict data with e | c0 <;> rw [hum] at h
      · simp at h
      · exact ⟨data, c0, rfl, hum, loadResolved_loaded _ _ _ _ h⟩

/-- Witness for C9 at a concrete file state and concrete collaborators. -/
theorem c9_load_error_behaviour_witness :
    (ApplianceConfig.Load .notExist (fun _ => .error "eof")
        (fun _ _ _ => .error "network") (fun _ => none) = .notFound
      ↔ (FetchedFile.notExist = FetchedFile.notExist))
    ∧ (∃ m, ApplianceConfig.Load (.fetchFailure "denied") (fun _ => .error "eof")
        (fun _ _ _ => .error "network") (fun _ => none) = .err m)
    ∧ (∃ m, ApplianceConfig.Load (.ok "junk") (fun _ => .error "eof")
        (fun _ _ _ => .error "network") (fun _ => none) = .err m) :=
  ⟨(c9_load_error_behaviour .notExist (fun _ => .error "eof")
      (fun _ _ _ => .error "network") (fun _ => none)).1,
   (c9_load_error_behaviour (.fetchFailure "denied") (fun _ => .error "eof")
      (fun _ _ _ => .error "network") (fun _ => none)).2.1 "denied" rfl,
   (c9_load_error_behaviour (.ok "junk") (fun _ => .error "eof")
      (fun _ _ _ => .error "network") (fun _ => none)).2.2.1 "junk" "eof" rfl rfl⟩

@[simp]
theorem fetchMany_nil {ι A : Type} [DecidableEq ι] (deps : ι → List ι)
    (gen : ι → List A → Option A) (fuel : Nat) (stack : List ι) (st : Store ι A) :
    fetchMany deps gen fuel stack st [] = .ok [] st := by
  cases fuel <;> rfl

/-- Master bookkeeping facts about one `fetchMany` call: a cached artifact is
permanent and its node never regenerates (1); an in-progress identity is
neither cached nor generated (2); an identity that ends uncached was never
generated (3); an uncached identity is generated at most once (4). -/
theorem fetchMany_store_facts {ι A : Type} [DecidableEq ι]
    (deps : ι → List ι) (gen : ι → List A → Option A) :
    ∀ (fuel : Nat) (stack : List ι) (st : Store ι A) (l : List ι),
      (∀ c a, st.cache c = some a →
        (fetchMany deps gen fuel stack st l).store.cache c = some a
        ∧ (fetchMany deps gen fuel stack st l).store.count c = st.count c)
      ∧ (∀ s, s ∈ stack → st.cache s = none →
        (fetchMany deps gen fuel stack st l).store.cache s = none
        ∧ (fetchMany deps gen fuel stack st l).store.count s = st.count s)
      ∧ (∀ c, st.cache c = none → (fetchMany deps gen fuel stack st l).store.cache c = none →
        (fetchMany deps gen fuel stack st l).store.count c = st.count c)
      ∧ (∀ c, st.cache c = none →
        (fetchMany deps gen fuel stack st l).store.count c ≤ st.count c + 1) := by
  intro fuel
  induction fuel with
  | zero =>
    intro stack st l
    have hres : (fetchMany deps gen 0 stack st l).store = st := by
      cases l <;> rfl
    rw [hres]
    exact ⟨fun c a h => ⟨h, rfl⟩, fun s _ h => ⟨h, rfl⟩, fun c _ _ => rfl,
      fun c _ => Nat.le_succ _⟩
  | succ fuel ih =>
    intro stack st l
    cases l with
    | nil =>
      rw [fetchMany_nil]
      exact ⟨fun c a h => ⟨h, rfl⟩, fun s _ h => ⟨h, rfl⟩, fun c _ _ => rfl,
        fun c _ => Nat.le_succ _⟩
    | cons t rest =>
      rcases hc : st.cache t with _ | a0
      · -- head not cached
        by_cases hs : t ∈ stack
        · -- cycle error: store unchanged
          have hres : fetchMany deps gen (fuel + 1) stack st (t :: rest)
              = .err (.cycle t) st := by
            simp [fetchMany, hc, hs]
          rw [hres]
          exact ⟨fun c a h => ⟨h, rfl⟩, fun s _ h => ⟨h, rfl⟩, fun c _ _ => rfl,
            fun c _ => Nat.le_succ _⟩
        · obtain ⟨ih1, ih2, ih3, ih4⟩ := ih (t :: stack) st (deps t)
          rcases hd : fetchMany deps gen fuel (t :: stack) st (deps t) with ⟨arts, st1⟩ | ⟨e, st1⟩ <;>
            rw [hd] at ih1 ih2 ih3 ih4 <;>
            simp only [FetchOutcome.store] at ih1 ih2 ih3 ih4
          · -- dependencies resolved
            rcases hg : gen t arts with _ | a
            · -- generation failed: store is st1
              have hres : fetchMany deps gen (fuel + 1) stack st (t :: rest)
                  = .err (.generation t) st1 := by
                simp [fetchMany, hc, hs, hd, hg]
              rw [hres]
              simp only [FetchOutcome.store]
              exact ⟨ih1, fun s hmem h => ih2 s (List.mem_cons_of_mem _ hmem) h, ih3, ih4⟩
            · -- artifact generated and cached
              obtain ⟨ht1, ht2⟩ := ih2 t (List.mem_cons_self _ _) hc
              obtain ⟨jh1, jh2, jh3, jh4⟩ := ih stack (cacheArtifact st1 t a) rest
              rcases hr : fetchMany deps gen fuel stack (cacheArtifact st1 t a) rest
                  with ⟨arts2, st2⟩ | ⟨e, st2⟩ <;>
                rw [hr] at jh1 jh2 jh3 jh4 <;>
                simp only [FetchOutcome.store] at jh1 jh2 jh3 jh4 <;>
                [ (have hres : fetchMany deps gen (fuel + 1) stack st (t :: rest)
                      = .ok (a :: arts2) st2 := by
                    simp [fetchMany, hc, hs, hd, hg, hr]);
                  (have hres : fetchMany deps gen (fuel + 1) stack st (t :: rest)
                      = .err e st2 := by
                    simp [fetchMany, hc, hs, hd, hg, hr]) ] <;>
                rw [hres] <;>
                simp only [FetchOutcome.store] <;>
              · refine ⟨?_, ?_, ?_, ?_⟩
                · -- (1) previously cached identities
                  intro c a1 h
                  have hct : c ≠ t := fun hEq => by rw [hEq, hc] at h; cases h
                  obtain ⟨k1, k2⟩ := ih1 c a1 h
                  have h2 : (cacheArtifact st1 t a).cache c = some a1 := by
                    rw [cacheArtifact_cache_other _ _ _ _ hct]; exact k1
                  obtain ⟨m1, m2⟩ := jh1 c a1 h2
                  exact ⟨m1, by rw [m2, cacheArtifact_count_other _ _ _ _ hct, k2]⟩
                · -- (2) stacked identities
                  intro s hmem h
                  have hst : s ≠ t := fun hEq => hs (hEq ▸ hmem)
                  obtain ⟨k1, k2⟩ := ih2 s (List.mem_cons_of_mem _ hmem) h
                  have h2 : (cacheArtifact st1 t a).cache s = none := by
                    rw [cacheArtifact_cache_other _ _ _ _ hst]; exact k1
                  obtain ⟨m1, m2⟩ := jh2 s hmem h2
                  exact ⟨m1, by rw [m2, cacheArtifact_count_other _ _ _ _ hst, k2]⟩
                · -- (3) identities ending uncached were not generated
                  intro c h hend
                  have hct : c ≠ t := by
                    intro hEq
                    subst hEq
                    obtain ⟨m1, _⟩ := jh1 c a (by simp)
                    rw [hend] at m1
                    cases m1
                  rcases h1c : st1.cache c with _ | b
                  · have h2 : (cacheArtifact st1 t a).cache c = none := by
                      rw [cacheArtifact_cache_other _ _ _ _ hct]; exact h1c
                    have m2 := jh3 c h2 hend
                    rw [m2, cacheArtifact_count_other _ _ _ _ hct, ih3 c h h1c]
                  · obtain ⟨m1, _⟩ := jh1 c b (by
                      rw [cacheArtifact_cache_other _ _ _ _ hct]; exact h1c)
                    rw [hend] at m1
                    cases m1
                · -- (4) uncached identities generated at most once
                  intro c h
                  by_cases hct : c = t
                  · subst hct
                    obtain ⟨m1, m2⟩ := jh1 c a (by simp)
                    rw [m2, cacheArtifact_count_self, ht2]
                  · rcases h1c : st1.cache c with _ | b
                    · have h2 : (cacheArtifact st1 t a).cache c = none := by
                        rw [cacheArtifact_cache_other _ _ _ _ hct]; exact h1c
                      have m4 := jh4 c h2
                      rw [cacheArtifact_count_other _ _ _ _ hct, ih3 c h h1c] at m4
                      exact m4
                    · obtain ⟨m1, m2⟩ := jh1 c b (by
                        rw [cacheArtifact_cache_other _ _ _ _ hct]; exact h1c)
                      rw [m2, cacheArtifact_count_other _ _ _ _ hct]
                      exact ih4 c h
          · -- dependency resolution failed: store is st1
            have hres : fetchMany deps gen (fuel + 1) stack st (t :: rest)
                = .err e st1 := by
              simp [fetchMany, hc, hs, hd]
            rw [hres]
            simp only [FetchOutcome.store]
            exact ⟨ih1, fun s hmem h => ih2 s (List.mem_cons_of_mem _ hmem) h, ih3, ih4⟩
      · -- head cached: recurse on the tail with the same store
        obtain ⟨ih1, ih2, ih3, ih4⟩ := ih stack st rest
        rcases hr : fetchMany deps gen fuel stack st rest with ⟨arts2, st2⟩ | ⟨e, st2⟩ <;>
          rw [hr] at ih1 ih2 ih3 ih4 <;>
          simp only [FetchOutcome.store] at ih1 ih2 ih3 ih4 <;>
          [ (have hres : fetchMany deps gen (fuel + 1) stack st (t :: rest)
                = .ok (a0 :: arts2) st2 := by
              simp [fetchMany, hc, hr]);
            (have hres : fetchMany deps gen (fuel + 1) stack st (t :: rest)
                = .err e st2 := by
              simp [fetchMany, hc, hr]) ] <;>
          rw [hres] <;>
          simp only [FetchOutcome.store] <;>
          exact ⟨ih1, ih2, ih3, ih4⟩

/-- A cached identity is returned as-is: the store (hence every generation
counter) is untouched. -/
theorem Fetch_cached {ι A : Type} [DecidableEq ι] (deps : ι → List ι)
    (gen : ι → List A → Option A) (fuel : Nat) (st : Store ι A) (t : ι) (a : A)
    (h : st.cache t = some a) :
    Fetch deps gen (fuel + 1) st t = .ok [a] st := by
  simp [Fetch, fetchMany, h]

/-- A successful fetch leaves its target cached with the returned artifact. -/
theorem Fetch_success_caches {ι A : Type} [DecidableEq ι] (deps : ι → List ι)
    (gen : ι → List A → Option A) (fuel : Nat) (st : Store ι A) (t : ι)
    (arts : List A) (st' : Store ι A)
    (h : Fetch deps gen fuel st t = .ok arts st') :
    ∃ a, arts = [a] ∧ st'.cache t = some a := by
  cases fuel with
  | zero => simp [Fetch, fetchMany] at h
  | succ fuel =>
    rcases hc : st.cache t with _ | a
    · simp only [Fetch, fetchMany, hc, List.not_mem_nil, if_false] at h
      rcases hd : fetchMany deps gen fuel [t] st (deps t) with ⟨arts1, st1⟩ | ⟨e, st1⟩ <;>
        simp only [hd] at h
      · rcases hg : gen t arts1 with _ | a <;> simp only [hg] at h
        · simp at h
        · simp only [FetchOutcome.ok.injEq] at h
          exact ⟨a, h.1.symm, by rw [← h.2]; simp⟩
      · simp at h
    · simp only [Fetch, fetchMany, hc, fetchMany_nil] at h
      simp only [FetchOutcome.ok.injEq] at h
      exact ⟨a, h.1.symm, by rw [← h.2]; exact hc⟩

/-- C3: generation is memoized. A cached identity is returned without touching
the store (1); a successful fetch caches its target, so every later fetch of
the same identity in the same run returns the cached artifact with the store —
hence every generation counter — unchanged (2); from any store in which
uncached identities have never generated and no identity has generated more
than once (the fresh store in particular), any fetch preserves both, so the
generation function of every identity runs at most once per orchestrator run
(3); and in the concrete build run, fetching `EnvConfig` in `preRunBuild` and
then `ApplianceDiskImage` in `runBuild` invokes `EnvConfig`'s generation
exactly once (4). -/
theorem c3_fetch_memoizes_generation :
    (∀ (ι A : Type) [DecidableEq ι] (deps : ι → List ι) (gen : ι → List A → Option A)
        (fuel : Nat) (st : Store ι A) (t : ι) (a : A),
        st.cache t = some a → Fetch deps gen (fuel + 1) st t = .ok [a] st)
    ∧ (∀ (ι A : Type) [DecidableEq ι] (deps : ι → List ι) (gen : ι → List A → Option A)
        (fuel : Nat) (st : Store ι A) (t : ι) (arts : List A) (st' : Store ι A),
        Fetch deps gen fuel st t = .ok arts st' →
        ∃ a, arts = [a] ∧ st'.cache t = some a
          ∧ ∀ fuel2, Fetch deps gen (fuel2 + 1) st' t = .ok [a] st')
    ∧ (∀ (ι A : Type) [DecidableEq ι] (deps : ι → List ι) (gen : ι → List A → Option A)
        (fuel : Nat) (stack : List ι) (st : Store ι A) (l : List ι),
        (∀ c, st.cache c = none → st.count c = 0) → (∀ c, st.count c ≤ 1) →
        (∀ c, (fetchMany deps gen fuel stack st l).store.cache c = none →
          (fetchMany deps gen fuel stack st l).store.count c = 0)
        ∧ (∀ c, (fetchMany deps gen fuel stack st l).store.count c ≤ 1))
    ∧ (preRunStore.count .envConfig = 1
      ∧ runBuildStore.count .envConfig = 1
      ∧ runBuildStore.count .applianceDiskImage = 1) := by
  refine ⟨?_, ?_, ?_, ?_⟩
  · intro ι A _ deps gen fuel st t a h
    exact Fetch_cached deps gen fuel st t a h
  · intro ι A _ deps gen fuel st t arts st' h
    obtain ⟨a, ha, hcache⟩ := Fetch_success_caches deps gen fuel st t arts st' h
    exact ⟨a, ha, hcache, fun fuel2 => Fetch_cached deps gen fuel2 st' t a hcache⟩
  · intro ι A _ deps gen fuel stack st l h0 h1
    obtain ⟨f1, f2, f3, f4⟩ := fetchMany_store_facts deps gen fuel stack st l
    constructor
    · intro c hend
      rcases hcase : st.cache c with _ | b
      · rw [f3 c hcase hend]
        exact h0 c hcase
      · obtain ⟨m1, _⟩ := f1 c b hcase
        rw [hend] at m1
        cases m1
    · intro c
      rcases hcase : st.cache c with _ | b
      · have h4 := f4 c hcase
        have h0c := h0 c hcase
        omega
      · obtain ⟨_, m2⟩ := f1 c b hcase
        rw [m2]
        exact h1 c
  · exact ⟨by decide, by decide, by decide⟩

/-- Witness for C3: a concrete pre-cached store is returned untouched, a
concrete successful fetch is cached, and the fresh store satisfies the
at-most-once invariant, which one concrete fetch preserves. -/
theorem c3_fetch_memoizes_generation_witness :
    Fetch (fun _ : Bool => []) (fun _ _ => some (7 : Nat)) 1
        { cache := fun _ => some 7, count := fun _ => 1 } true
      = .ok [7] { cache := fun _ => some 7, count := fun _ => 1 }
    ∧ (∃ a, ([7] : List Nat) = [a]
        ∧ (Fetch (fun _ : Bool => []) (fun _ _ => some (7 : Nat)) 1
            (freshStore Bool Nat) true).store.cache true = some a
        ∧ ∀ fuel2, Fetch (fun _ : Bool => []) (fun _ _ => some (7 : Nat)) (fuel2 + 1)
            (Fetch (fun _ : Bool => []) (fun _ _ => some (7 : Nat)) 1
              (freshStore Bool Nat) true).store true
          = .ok [a] (Fetch (fun _ : Bool => []) (fun _ _ => some (7 : Nat)) 1
              (freshStore Bool Nat) true).store)
    ∧ (∀ c, (fetchMany (fun _ : Bool => []) (fun _ _ => some (7 : Nat)) 1 []
          (freshStore Bool Nat) [true]).store.count c ≤ 1) :=
  ⟨c3_fetch_memoizes_generation.1 Bool Nat (fun _ => []) (fun _ _ => some 7) 0
      { cache := fun _ => some 7, count := fun _ => 1 } true 7 rfl,
   (c3_fetch_memoizes_generation.2.1 Bool Nat (fun _ => []) (fun _ _ => some 7) 1
      (freshStore Bool Nat) true [7]
      (Fetch (fun _ : Bool => []) (fun _ _ => some (7 : Nat)) 1 (freshStore Bool Nat) true).store
      rfl),
   (c3_fetch_memoizes_generation.2.2.1 Bool Nat (fun _ => []) (fun _ _ => some 7) 1 []
      (freshStore Bool Nat) [true] (fun _ _ => rfl) (fun _ => Nat.zero_le 1)).2⟩

/-- On any dependency graph, let `C` be a set of identities each of which has
a dependency inside `C` (a cycle, in particular). If no `C`-identity is
cached, then after any `fetchMany` call every `C`-identity is still uncached
with its generation counter unchanged — no generation function on the cycle
ever runs — and a worklist containing a `C`-identity never resolves
successfully. -/
theorem fetchMany_cycle_blocks {ι A : Type} [DecidableEq ι]
    (deps : ι → List ι) (gen : ι → List A → Option A) (C : ι → Prop)
    (hC : ∀ c, C c → ∃ c2, c2 ∈ deps c ∧ C c2) :
    ∀ (fuel : Nat) (stack : List ι) (st : Store ι A) (l : List ι),
      (∀ c, C c → st.cache c = none) →
      (∀ c, C c →
        (fetchMany deps gen fuel stack st l).store.cache c = none
        ∧ (fetchMany deps gen fuel stack st l).store.count c = st.count c)
      ∧ (∀ x, x ∈ l → C x → (fetchMany deps gen fuel stack st l).artifacts = none) := by
  intro fuel
  induction fuel with
  | zero =>
    intro stack st l hst
    have hres : (fetchMany deps gen 0 stack st l).store = st := by
      cases l <;> rfl
    refine ⟨fun c hc => by rw [hres]; exact ⟨hst c hc, rfl⟩, ?_⟩
    intro x hx hCx
    cases l with
    | nil => exact absurd hx (List.not_mem_nil x)
    | cons t rest => rfl
  | succ fuel ih =>
    intro stack st l hst
    cases l with
    | nil =>
      refine ⟨fun c hc => by rw [fetchMany_nil]; exact ⟨hst c hc, rfl⟩, ?_⟩
      intro x hx _
      exact absurd hx (List.not_mem_nil x)
    | cons t rest =>
      rcases hc : st.cache t with _ | a0
      · by_cases hs : t ∈ stack
        · have hres : fetchMany deps gen (fuel + 1) stack st (t :: rest)
              = .err (.cycle t) st := by
            simp [fetchMany, hc, hs]
          rw [hres]
          exact ⟨fun c hCc => ⟨hst c hCc, rfl⟩, fun x _ _ => rfl⟩
        · rcases hd : fetchMany deps gen fuel (t :: stack) st (deps t)
              with ⟨arts, st1⟩ | ⟨e, st1⟩
          · obtain ⟨ch1, ch2⟩ := ih (t :: stack) st (deps t) hst
            rw [hd] at ch1 ch2
            simp only [FetchOutcome.store, FetchOutcome.artifacts] at ch1 ch2
            have hCt : ¬ C t := by
              intro hCt
              obtain ⟨c2, hc2mem, hc2C⟩ := hC t hCt
              exact absurd (ch2 c2 hc2mem hc2C) (by simp)
            rcases hg : gen t arts with _ | a
            · have hres : fetchMany deps gen (fuel + 1) stack st (t :: rest)
                  = .err (.generation t) st1 := by
                simp [fetchMany, hc, hs, hd, hg]
              rw [hres]
              exact ⟨fun c hCc => (ch1 c hCc), fun x _ _ => rfl⟩
            · have hst2 : ∀ c, C c → (cacheArtifact st1 t a).cache c = none := by
                intro c hCc
                rw [cacheArtifact_cache_other _ _ _ _ (fun hEq : c = t => hCt (hEq ▸ hCc))]
                exact (ch1 c hCc).1
              obtain ⟨dh1, dh2⟩ := ih stack (cacheArtifact st1 t a) rest hst2
              rcases hr : fetchMany deps gen fuel stack (cacheArtifact st1 t a) rest
                  with ⟨arts2, st2⟩ | ⟨e, st2⟩ <;>
                rw [hr] at dh1 dh2 <;>
                simp only [FetchOutcome.store, FetchOutcome.artifacts] at dh1 dh2 <;>
                [ (have hres : fetchMany deps gen (fuel + 1) stack st (t :: rest)
                      = .ok (a :: arts2) st2 := by
                    simp [fetchMany, hc, hs, hd, hg, hr]);
                  (have hres : fetchMany deps gen (fuel + 1) stack st (t :: rest)
                      = .err e st2 := by
                    simp [fetchMany, hc, hs, hd, hg, hr]) ] <;>
                rw [hres] <;>
                simp only [FetchOutcome.store, FetchOutcome.artifacts]
              · refine ⟨?_, ?_⟩
                · intro c hCc
                  have hct : c ≠ t := fun hEq : c = t => hCt (hEq ▸ hCc)
                  obtain ⟨m1, m2⟩ := dh1 c hCc
                  refine ⟨m1, ?_⟩
                  rw [m2, cacheArtifact_count_other _ _ _ _ hct, (ch1 c hCc).2]
                · intro x hx hCx
                  rcases List.mem_cons.mp hx with hEq | hxrest
                  · exact absurd (hEq ▸ hCx) hCt
                  · exact absurd (dh2 x hxrest hCx) (by simp)
              · refine ⟨?_, fun _ _ _ => trivial⟩
                intro c hCc
                have hct : c ≠ t := fun hEq : c = t => hCt (hEq ▸ hCc)
                obtain ⟨m1, m2⟩ := dh1 c hCc
                refine ⟨m1, ?_⟩
                rw [m2, cacheArtifact_count_other _ _ _ _ hct, (ch1 c hCc).2]
          · obtain ⟨ch1, _⟩ := ih (t :: stack) st (deps t) hst
            rw [hd] at ch1
            simp only [FetchOutcome.store] at ch1
            have hres : fetchMany deps gen (fuel + 1) stack st (t :: rest)
                = .err e st1 := by
              simp [fetchMany, hc, hs, hd]
            rw [hres]
            exact ⟨fun c hCc => ch1 c hCc, fun x _ _ => rfl⟩
      · obtain ⟨ch1, ch2⟩ := ih stack st rest hst
        rcases hr : fetchMany deps gen fuel stack st rest with ⟨arts2, st2⟩ | ⟨e, st2⟩ <;>
          rw [hr] at ch1 ch2 <;>
          simp only [FetchOutcome.store, FetchOutcome.artifacts] at ch1 ch2 <;>
          [ (have hres : fetchMany deps gen (fuel + 1) stack st (t :: rest)
                = .ok (a0 :: arts2) st2 := by
              simp [fetchMany, hc, hr]);
            (have hres : fetchMany deps gen (fuel + 1) stack st (t :: rest)
                = .err e st2 := by
              simp [fetchMany, hc, hr]) ] <;>
          rw [hres] <;>
          simp only [FetchOutcome.store, FetchOutcome.artifacts]
        · refine ⟨ch1, ?_⟩
          intro x hx hCx
          rcases List.mem_cons.mp hx with hEq | hxrest
          · rw [hEq] at hCx
            rw [hst t hCx] at hc
            cases hc
          · exact absurd (ch2 x hxrest hCx) (by simp)
        · exact ⟨ch1, fun _ _ _ => trivial⟩

/-- C6: on every dependency graph, no generation function of a node on a
dependency cycle is ever invoked and a fetch of a cycle node never succeeds
(1); and for the concrete shape of the spec's test — `A` depends on `B` and
`B` depends on `A` — `Fetch A` fails with a `CycleError` naming the identity,
leaving the store (hence every generation counter) untouched (2). -/
theorem c6_cycle_detected_before_generation :
    (∀ (ι A : Type) [DecidableEq ι] (deps : ι → List ι) (gen : ι → List A → Option A)
        (C : ι → Prop), (∀ c, C c → ∃ c2, c2 ∈ deps c ∧ C c2) →
        ∀ (fuel : Nat) (st : Store ι A) (target : ι),
          (∀ c, C c → st.cache c = none) → C target →
          (Fetch deps gen fuel st target).artifacts = none
          ∧ ∀ c, C c → (Fetch deps gen fuel st target).store.count c = st.count c)
    ∧ (∀ (ι A : Type) [DecidableEq ι] (deps : ι → List ι) (gen : ι → List A → Option A)
        (a b : ι) (fuel : Nat) (st : Store ι A),
        a ≠ b → deps a = [b] → deps b = [a] →
        st.cache a = none → st.cache b = none →
        Fetch deps gen (fuel + 3) st a = .err (.cycle a) st) := by
  constructor
  · intro ι A _ deps gen C hC fuel st target hst hCt
    obtain ⟨h1, h2⟩ := fetchMany_cycle_blocks deps gen C hC fuel [] st [target] hst
    exact ⟨h2 target (List.mem_singleton.mpr rfl) hCt, fun c hCc => (h1 c hCc).2⟩
  · intro ι A _ deps gen a b fuel st hab hda hdb ha hb
    have hstep : fuel + 3 = ((fuel + 1) + 1) + 1 := rfl
    rw [hstep]
    simp [Fetch, fetchMany, hda, hdb, ha, hb, hab, Ne.symm hab]

/-- Witness for C6: the two-node cycle over `Bool` with `true → false → true`,
fetched from the fresh store. -/
theorem c6_cycle_detected_before_generation_witness :
    ((Fetch (fun x : Bool => [x]) (fun _ _ => some (0 : Nat)) 5
        (freshStore Bool Nat) true).artifacts = none
      ∧ ∀ c, c = true → (Fetch (fun x : Bool => [x]) (fun _ _ => some (0 : Nat)) 5
        (freshStore Bool Nat) true).store.count c = (freshStore Bool Nat).count c)
    ∧ Fetch (fun x : Bool => if x then [false] else [true]) (fun _ _ => some (0 : Nat)) 3
        (freshStore Bool Nat) true
      = .err (.cycle true) (freshStore Bool Nat) :=
  ⟨c6_cycle_detected_before_generation.1 Bool Nat (fun x => [x]) (fun _ _ => some 0)
      (fun x => x = true) (fun c hc => ⟨c, List.mem_singleton.mpr rfl, hc⟩) 5
      (freshStore Bool Nat) true (fun _ _ => rfl) rfl,
   c6_cycle_detected_before_generation.2 Bool Nat
      (fun x => if x then [false] else [true]) (fun _ _ => some 0) true false 0
      (freshStore Bool Nat) (by decide) rfl rfl rfl rfl⟩

end Appliance
